import Mathlib

/-!
Verification development for the webrtc-audio-processing repository.

The repository consists of two files:
  * webrtc-audio-processing-sys/build.rs — the build script that locates or
    builds the native engine (system-probe strategy and vendored/bundled
    strategy) and then generates bindings;
  * examples/config_karaoke.rs — a demo duplex-audio loop with config-file
    loading, a real-time audio callback, and a polled shutdown flag.

Everything below is a shallow embedding of those two files.  External
collaborators (pkg-config, the filesystem, the native DSP engine, the audio
host) are passed in as explicit parameters so that the control flow written
in the repository is what the definitions capture.
-/

namespace BuildRs

/-- Error conditions of the build script, named after the taxonomy used by
the documentation.  `dependencyNotFound` models the bail at the end of the
non-bundled `get_build_paths`; `emptySourceTree` models the bail in the
bundled `build_if_necessary`; `probeFailure` stands for an error value
returned by the external pkg-config probe, which `find_pkgconfig_paths`
propagates unchanged via the question-mark operator. -/
inductive BuildError where
  | dependencyNotFound
  | emptySourceTree
  | probeFailure
  deriving DecidableEq, Repr

/-- The two override environment variables read by the non-bundled
`get_build_paths`: `WEBRTC_AUDIO_PROCESSING_INCLUDE` and
`WEBRTC_AUDIO_PROCESSING_LIB`.  `none` models an unset variable. -/
structure Env where
  includeVar : Option String
  libVar : Option String
  deriving DecidableEq, Repr

/-- The two lines of remediation text printed by the non-bundled
`get_build_paths` before it bails with the dependency-not-found error
(build.rs lines 31-35). -/
def remediationLog : List String :=
  ["Could not find either header or lib files for webrtc-audio-processing-2 version 2.0 or newer.",
   "See the crate README for installation instructions, or use the bundled feature to statically compile."]

/-- Resolution of the include path (build.rs lines 19-22): the environment
override, when set, takes precedence over the path the probe returned. -/
def resolvedInclude (env : Env) (pkgInc : Option String) : Option String :=
  match env.includeVar with
  | some v => some v
  | none => pkgInc

/-- Resolution of the library path (build.rs lines 23-26). -/
def resolvedLib (env : Env) (pkgLib : Option String) : Option String :=
  match env.libVar with
  | some v => some v
  | none => pkgLib

/-- The non-bundled `get_build_paths` (build.rs lines 16-39).  The result of
the pkg-config probe is passed in as `probe`: `Except.error e` when the probe
itself failed, `Except.ok (pkgInc, pkgLib)` when it succeeded (each component
optional, as `find_pkgconfig_paths` pops from possibly empty path lists).
The returned pair is (lines printed to stderr, build result).  Note the
source applies the question-mark operator to `find_pkgconfig_paths()` BEFORE
reading the environment variables, so a probe error is returned immediately,
overrides notwithstanding. -/
def getBuildPaths (env : Env) (probe : Except BuildError (Option String × Option String)) :
    List String × Except BuildError (List String × List String) :=
  match probe with
  | .error e => ([], .error e)
  | .ok (pkgInc, pkgLib) =>
    match resolvedInclude env pkgInc, resolvedLib env pkgLib with
    | some i, some l => ([], .ok ([i], [l]))
    | some _, none => (remediationLog, .error .dependencyNotFound)
    | none, some _ => (remediationLog, .error .dependencyNotFound)
    | none, none => (remediationLog, .error .dependencyNotFound)

/-- Both override variables set, for concrete evaluation. -/
def envBoth : Env := ⟨some "/inc", some "/lib"⟩

/-- Both override variables unset. -/
def envNone : Env := ⟨none, none⟩

/-- The external build steps run by the bundled strategy, in the order the
source invokes them: the cmake build of abseil-cpp, the meson setup of the
engine, and the ninja install. -/
inductive BuildStep where
  | cmakeAbseil
  | mesonSetup
  | ninjaInstall
  deriving DecidableEq, Repr

/-- One run of a bundled build function: the lines it printed to stderr, the
external build steps it executed, and its result. -/
structure BundledRun (ρ : Type) where
  log : List String
  steps : List BuildStep
  result : Except BuildError ρ
  deriving Repr

/-- The bundled `get_build_paths` (build.rs lines 61-108), with the OUT_DIR
value passed in as `outDir` and the emptiness of the vendored source tree as
`srcEmpty`.  The function runs cmake, meson and ninja unconditionally and
returns the four include directories and one library directory it assembles;
it never reads the source tree, so `srcEmpty` is deliberately unused.  The
model takes the tools to be installed and their runs to succeed; tool
failures are irrelevant to the claims settled here. -/
def getBuildPathsBundled (outDir : String) (_srcEmpty : Bool) :
    BundledRun (List String × List String) :=
  { log := []
    steps := [.cmakeAbseil, .mesonSetup, .ninjaInstall]
    result := .ok
      ([outDir ++ "/include/webrtc-audio-processing-2",
        outDir ++ "/include",
        "webrtc-audio-processing",
        "webrtc-audio-processing/webrtc"],
       [outDir ++ "/lib"]) }

/-- The three reminder lines printed by the bundled `build_if_necessary`
when the vendored source directory is empty (build.rs lines 112-114). -/
def emptyTreeLog : List String :=
  ["The webrtc-audio-processing source directory is empty.",
   "See the crate README for installation instructions.",
   "Remember to clone the repo recursively if building from source."]

/-- The bundled `build_if_necessary` (build.rs lines 110-145): when the
vendored source directory is empty it prints the reminder lines and fails
with the empty-source-tree error before any build step; otherwise it runs
the cmake, meson and ninja steps. -/
def buildIfNecessary (_outDir : String) (srcEmpty : Bool) : BundledRun Unit :=
  if srcEmpty then
    { log := emptyTreeLog, steps := [], result := .error .emptySourceTree }
  else
    { log := [], steps := [.cmakeAbseil, .mesonSetup, .ninjaInstall], result := .ok () }

/-- The build performed by `main` (build.rs line 149) under the bundled
feature: `main` calls `webrtc::get_build_paths()` and nothing else from the
`webrtc` module — in particular it never invokes `build_if_necessary`. -/
def mainBundled (outDir : String) (srcEmpty : Bool) :
    BundledRun (List String × List String) :=
  getBuildPathsBundled outDir srcEmpty

end BuildRs

namespace ConfigKaraoke

/-- The fixed frame count of the demo (config_karaoke.rs line 20). -/
def FRAMES_PER_BUFFER : Nat := 480

/-- The field-level serde default for the two channel-count fields
(config_karaoke.rs lines 64-66). -/
def default_channels : Nat := 1

/-- The demo application configuration (config_karaoke.rs lines 28-39).
The nested `Config` and `EchoCanceller3Config` come from the wrapped
processing crate and are outside this repository, so they are carried as
type parameters `C` and `A`; channel counts are u16 values, carried as
naturals. -/
structure AppConfig (C A : Type) where
  num_capture_channels : Nat
  num_render_channels : Nat
  config : C
  aec3 : A
  deriving Repr, DecidableEq

/-- The `Default` instance for `AppConfig` (config_karaoke.rs lines 41-50),
with the external defaults of the two nested configuration types passed in
as `cdef` and `adef`. -/
def AppConfig.defaultConfig (cdef : C) (adef : A) : AppConfig C A :=
  ⟨default_channels, default_channels, cdef, adef⟩

/-- A parsed configuration file as the serde derive sees it: each field
either explicitly present or absent.  The derive on `AppConfig` carries
`serde(default)` on the struct and on every field, so an absent field takes
its default. -/
structure PartialAppConfig (C A : Type) where
  num_capture_channels : Option Nat
  num_render_channels : Option Nat
  config : Option C
  aec3 : Option A
  deriving Repr, DecidableEq

/-- Deserialization of a parsed file into an `AppConfig`, following the
serde attributes on the struct (config_karaoke.rs lines 28-39): a present
field keeps its explicit value, an absent one takes its default
(`default_channels` for the channel counts, the external defaults for the
nested blocks). -/
def deserializeAppConfig (cdef : C) (adef : A) (p : PartialAppConfig C A) :
    AppConfig C A :=
  ⟨p.num_capture_channels.getD default_channels,
   p.num_render_channels.getD default_channels,
   p.config.getD cdef,
   p.aec3.getD adef⟩

/-- `AppConfig::from_file_with_defaults` (config_karaoke.rs lines 52-62).
The filesystem and the json5 front end are passed in as `file`: `none` when
the path does not exist, `some (Except.error e)` when reading or parsing
fails, `some (Except.ok p)` when the file parses to `p`.  A nonexistent
path yields the all-default configuration; a parse failure propagates. -/
def from_file_with_defaults (cdef : C) (adef : A)
    (file : Option (Except String (PartialAppConfig C A))) :
    Except String (AppConfig C A) :=
  match file with
  | some (.ok p) => .ok (deserializeAppConfig cdef adef p)
  | some (.error e) => .error e
  | none => .ok (AppConfig.defaultConfig cdef adef)

/-- The polling interval of the control loop, in milliseconds
(config_karaoke.rs line 93). -/
def POLL_INTERVAL_MS : Nat := 10

/-- The shared atomic flag as the control loop observes it when the
interrupt handler clears it at wall-clock time `c` milliseconds: the load
performed at poll `k` (wall-clock time `POLL_INTERVAL_MS * k`, the loop
sleeping one interval between polls) reads true exactly when it happens
strictly before the clear. -/
def flagOfClear (c : Nat) (k : Nat) : Bool :=
  decide (POLL_INTERVAL_MS * k < c)

/-- The `wait_ctrlc` polling loop (config_karaoke.rs lines 92-94): starting
at poll index `k`, load the flag; while it reads true, sleep one interval
and poll again.  `fuel` bounds the number of polls modelled; the result is
the index of the poll that observed false, when one occurred within the
bound. -/
def loopExit (flag : Nat → Bool) : Nat → Nat → Option Nat
  | _, 0 => none
  | k, fuel + 1 => if flag k then loopExit flag (k + 1) fuel else some k

/-- The externally visible actions of the demo `main`
(config_karaoke.rs lines 99-152), in program order: load the configuration,
create the processor, open the duplex stream, start it, run the `wait_ctrlc`
control loop, and return.  The source contains no call that stops the
stream; the stream value is merely dropped when `main` returns. -/
inductive MainAction where
  | loadConfig
  | createProcessor
  | openStream
  | startStream
  | waitCtrlc
  | stopStream
  deriving DecidableEq, Repr

/-- The action sequence of the demo `main` as written in the source. -/
def mainActions : List MainAction :=
  [.loadConfig, .createProcessor, .openStream, .startStream, .waitCtrlc]

end ConfigKaraoke

namespace ConfigKaraoke

/-- A processing error reported by `process_capture_frame` or
`process_render_frame` of the wrapped engine, carrying the native error
code. -/
structure ProcessingError where
  code : Int
  deriving DecidableEq, Repr

/-- The observable steps of one audio-callback invocation
(config_karaoke.rs lines 123-143), in source order: the copy of the input
into the pre-allocated `processed` buffer, the call to
`process_capture_frame`, the mono copy of `processed` into the stream
buffer (taken when the render channel count is 1), the sample-duplication
loop into `output_buffer` (taken otherwise), the copy of `output_buffer`
into the stream buffer, and the call to `process_render_frame`. -/
inductive Event where
  | copyInput
  | captureFrame
  | monoWrite
  | adaptDup
  | writeOut
  | renderFrame
  deriving DecidableEq, Repr

/-- The outcome of one audio-callback invocation: whether the callback
panicked (a failed assert, a length mismatch on a slice copy, or an
unwrapped processing error), the steps reached, and the final contents of
the three buffers the closure touches (`processed`, `output_buffer`, and
the stream output buffer). -/
structure CbResult (α : Type) where
  panicked : Bool
  events : List Event
  processed : List α
  outputBuffer : List α
  streamOut : List α
  deriving Repr

/-- The duplication loop of the callback (config_karaoke.rs lines 134-137):
for i in 0..frames, write `processed[i]` to positions `i * 2` and
`i * 2 + 1` of `output_buffer`.  Indexing is via `getD`/`set`; every use in
the theorems below stays within the bounds under which the source indexing
does not panic. -/
def dupLoop [Inhabited α] (frames : Nat) (processed buf : List α) : List α :=
  (List.range frames).foldl
    (fun b i =>
      (b.set (i * 2) (processed.getD i default)).set (i * 2 + 1) (processed.getD i default))
    buf

/-- The audio callback closure (config_karaoke.rs lines 123-144).  The two
engine entry points are passed in as `captureProc` and `renderProc`, each
mapping the buffer contents handed to the native call to either new
contents (in-place success) or a processing error.  `frames` and `inBuffer`
are what the host delivers; `processed`, `outputBuffer` and `streamOut` are
the contents of the pre-allocated buffers and of the stream output buffer
when the callback starts.  The callback asserts `frames = FRAMES_PER_BUFFER`
first, copies the input, runs capture processing, adapts channels (a plain
copy when `outputChannels = 1`, the duplication loop followed by a copy
otherwise), then runs render processing on the stream buffer; every unwrap
or failed slice-length check panics. -/
def callback [Inhabited α] (outputChannels : Nat)
    (captureProc renderProc : List α → Except ProcessingError (List α))
    (frames : Nat) (inBuffer : List α)
    (processed outputBuffer streamOut : List α) : CbResult α :=
  if frames = FRAMES_PER_BUFFER then
    if inBuffer.length = processed.length then
      match captureProc inBuffer with
      | .error _ =>
        ⟨true, [.copyInput, .captureFrame], inBuffer, outputBuffer, streamOut⟩
      | .ok processed2 =>
        if outputChannels = 1 then
          if processed2.length = streamOut.length then
            match renderProc processed2 with
            | .error _ =>
              ⟨true, [.copyInput, .captureFrame, .monoWrite, .renderFrame],
               processed2, outputBuffer, processed2⟩
            | .ok streamOut2 =>
              ⟨false, [.copyInput, .captureFrame, .monoWrite, .renderFrame],
               processed2, outputBuffer, streamOut2⟩
          else ⟨true, [.copyInput, .captureFrame], processed2, outputBuffer, streamOut⟩
        else
          if (dupLoop frames processed2 outputBuffer).length = streamOut.length then
            match renderProc (dupLoop frames processed2 outputBuffer) with
            | .error _ =>
              ⟨true, [.copyInput, .captureFrame, .adaptDup, .writeOut, .renderFrame],
               processed2, dupLoop frames processed2 outputBuffer,
               dupLoop frames processed2 outputBuffer⟩
            | .ok streamOut2 =>
              ⟨false, [.copyInput, .captureFrame, .adaptDup, .writeOut, .renderFrame],
               processed2, dupLoop frames processed2 outputBuffer, streamOut2⟩
          else ⟨true, [.copyInput, .captureFrame, .adaptDup],
                processed2, dupLoop frames processed2 outputBuffer, streamOut⟩
    else ⟨true, [], processed, outputBuffer, streamOut⟩
  else ⟨true, [], processed, outputBuffer, streamOut⟩

end ConfigKaraoke

namespace ConfigKaraoke

theorem dupLoop_succ {α : Type} [Inhabited α] (n : Nat) (p b : List α) :
    dupLoop (n + 1) p b =
      ((dupLoop n p b).set (n * 2) (p.getD n default)).set
        (n * 2 + 1) (p.getD n default) := by
  simp [dupLoop, List.range_succ]

theorem length_dupLoop {α : Type} [Inhabited α] (n : Nat) (p b : List α) :
    (dupLoop n p b).length = b.length := by
  induction n with
  | zero => rfl
  | succ k ih => rw [dupLoop_succ]; simp [ih]

theorem dupLoop_getElem?_of_ge {α : Type} [Inhabited α] (n j : Nat) (p b : List α)
    (h : n * 2 ≤ j) :
    (dupLoop n p b)[j]? = b[j]? := by
  induction n with
  | zero => rfl
  | succ k ih =>
    rw [dupLoop_succ]
    rw [List.getElem?_set_ne (by omega : k * 2 + 1 ≠ j),
        List.getElem?_set_ne (by omega : k * 2 ≠ j)]
    exact ih (by omega)

theorem dupLoop_getElem?_of_lt {α : Type} [Inhabited α] (n i : Nat) (p b : List α)
    (hi : i < n) (hb : i * 2 + 1 < b.length) :
    (dupLoop n p b)[i * 2]? = some (p.getD i default) ∧
    (dupLoop n p b)[i * 2 + 1]? = some (p.getD i default) := by
  induction n with
  | zero => omega
  | succ k ih =>
    rw [dupLoop_succ]
    rcases Nat.lt_succ_iff_lt_or_eq.mp hi with h | h
    · rw [List.getElem?_set_ne (by omega : k * 2 + 1 ≠ i * 2),
          List.getElem?_set_ne (by omega : k * 2 ≠ i * 2),
          List.getElem?_set_ne (by omega : k * 2 + 1 ≠ i * 2 + 1),
          List.getElem?_set_ne (by omega : k * 2 ≠ i * 2 + 1)]
      exact ih h
    · subst h
      have hlen1 : i * 2 < (dupLoop i p b).length := by rw [length_dupLoop]; omega
      have hlen2 : i * 2 + 1 < ((dupLoop i p b).set (i * 2) (p.getD i default)).length := by
        rw [List.length_set, length_dupLoop]; omega
      constructor
      · rw [List.getElem?_set_ne (by omega : i * 2 + 1 ≠ i * 2),
            List.getElem?_set_self hlen1]
      · rw [List.getElem?_set_self hlen2]

theorem dupLoop_congr {α : Type} [Inhabited α] (n : Nat) (p q b : List α)
    (h : ∀ i, i < n → p.getD i (default : α) = q.getD i default) :
    dupLoop n p b = dupLoop n q b := by
  induction n with
  | zero => rfl
  | succ k ih =>
    rw [dupLoop_succ, dupLoop_succ, h k (by omega), ih (fun i hi => h i (by omega))]

theorem dupLoop_take {α : Type} [Inhabited α] (n : Nat) (p b : List α) :
    dupLoop n p b = dupLoop n (p.take n) b := by
  apply dupLoop_congr
  intro i hi
  have ht : (p.take n)[i]? = p[i]? := List.getElem?_take_of_lt hi
  rw [List.getD_eq_getD_get?, List.getD_eq_getD_get?, List.get?_eq_getElem?,
      List.get?_eq_getElem?, ht]

theorem getElem?_eq_some_getD {α : Type} [Inhabited α] (p : List α) (i : Nat)
    (h : i < p.length) :
    p[i]? = some (p.getD i (default : α)) := by
  rw [List.getElem?_eq_getElem h, List.getD_eq_getElem p default h]

end ConfigKaraoke

namespace ConfigKaraoke

theorem callback_frames_mismatch {α : Type} [Inhabited α] (oc : Nat)
    (cp rp : List α → Except ProcessingError (List α)) (frames : Nat)
    (inB pr ob so : List α) (h : ¬frames = FRAMES_PER_BUFFER) :
    callback oc cp rp frames inB pr ob so = ⟨true, [], pr, ob, so⟩ := by
  unfold callback
  rw [if_neg h]

theorem callback_capture_error {α : Type} [Inhabited α] (oc : Nat)
    (cp rp : List α → Except ProcessingError (List α))
    (inB pr ob so : List α) (e : ProcessingError)
    (hlen : inB.length = pr.length) (hcap : cp inB = .error e) :
    callback oc cp rp FRAMES_PER_BUFFER inB pr ob so
      = ⟨true, [.copyInput, .captureFrame], inB, ob, so⟩ := by
  unfold callback
  rw [if_pos rfl, if_pos hlen, hcap]

theorem callback_mono_render_error {α : Type} [Inhabited α] (oc : Nat)
    (cp rp : List α → Except ProcessingError (List α))
    (inB pr ob so p2 : List α) (e : ProcessingError)
    (hch : oc = 1) (hlen : inB.length = pr.length) (hcap : cp inB = .ok p2)
    (hlen2 : p2.length = so.length) (hrp : rp p2 = .error e) :
    callback oc cp rp FRAMES_PER_BUFFER inB pr ob so
      = ⟨true, [.copyInput, .captureFrame, .monoWrite, .renderFrame], p2, ob, p2⟩ := by
  unfold callback
  rw [if_pos rfl, if_pos hlen]
  simp only [hcap]
  rw [if_pos hch, if_pos hlen2]
  simp only [hrp]

theorem callback_mono_render_ok {α : Type} [Inhabited α] (oc : Nat)
    (cp rp : List α → Except ProcessingError (List α))
    (inB pr ob so p2 s2 : List α)
    (hch : oc = 1) (hlen : inB.length = pr.length) (hcap : cp inB = .ok p2)
    (hlen2 : p2.length = so.length) (hrp : rp p2 = .ok s2) :
    callback oc cp rp FRAMES_PER_BUFFER inB pr ob so
      = ⟨false, [.copyInput, .captureFrame, .monoWrite, .renderFrame], p2, ob, s2⟩ := by
  unfold callback
  rw [if_pos rfl, if_pos hlen]
  simp only [hcap]
  rw [if_pos hch, if_pos hlen2]
  simp only [hrp]

theorem callback_stereo_render_error {α : Type} [Inhabited α] (oc : Nat)
    (cp rp : List α → Except ProcessingError (List α))
    (inB pr ob so p2 : List α) (e : ProcessingError)
    (hch : ¬oc = 1) (hlen : inB.length = pr.length) (hcap : cp inB = .ok p2)
    (hlen2 : (dupLoop FRAMES_PER_BUFFER p2 ob).length = so.length)
    (hrp : rp (dupLoop FRAMES_PER_BUFFER p2 ob) = .error e) :
    callback oc cp rp FRAMES_PER_BUFFER inB pr ob so
      = ⟨true, [.copyInput, .captureFrame, .adaptDup, .writeOut, .renderFrame],
         p2, dupLoop FRAMES_PER_BUFFER p2 ob, dupLoop FRAMES_PER_BUFFER p2 ob⟩ := by
  unfold callback
  rw [if_pos rfl, if_pos hlen]
  simp only [hcap]
  rw [if_neg hch, if_pos hlen2]
  simp only [hrp]

theorem callback_stereo_render_ok {α : Type} [Inhabited α] (oc : Nat)
    (cp rp : List α → Except ProcessingError (List α))
    (inB pr ob so p2 s2 : List α)
    (hch : ¬oc = 1) (hlen : inB.length = pr.length) (hcap : cp inB = .ok p2)
    (hlen2 : (dupLoop FRAMES_PER_BUFFER p2 ob).length = so.length)
    (hrp : rp (dupLoop FRAMES_PER_BUFFER p2 ob) = .ok s2) :
    callback oc cp rp FRAMES_PER_BUFFER inB pr ob so
      = ⟨false, [.copyInput, .captureFrame, .adaptDup, .writeOut, .renderFrame],
         p2, dupLoop FRAMES_PER_BUFFER p2 ob, s2⟩ := by
  unfold callback
  rw [if_pos rfl, if_pos hlen]
  simp only [hcap]
  rw [if_neg hch, if_pos hlen2]
  simp only [hrp]

set_option maxRecDepth 8192 in
theorem callback_stereo_outputBuffer {α : Type} [Inhabited α] (oc : Nat)
    (cp rp : List α → Except ProcessingError (List α))
    (inB pr ob so p2 : List α)
    (hch : ¬oc = 1) (hlen : inB.length = pr.length) (hcap : cp inB = .ok p2) :
    (callback oc cp rp FRAMES_PER_BUFFER inB pr ob so).outputBuffer
      = dupLoop FRAMES_PER_BUFFER p2 ob := by
  unfold callback
  rw [if_pos rfl, if_pos hlen]
  simp only [hcap]
  rw [if_neg hch]
  split
  · split <;> simp only [CbResult.outputBuffer]
  · simp only [CbResult.outputBuffer]

end ConfigKaraoke

namespace ConfigKaraoke

theorem loopExit_spec (flag : Nat → Bool) :
    ∀ fuel j k, loopExit flag j fuel = some k →
      flag k = false ∧ j ≤ k ∧ ∀ i, j ≤ i → i < k → flag i = true := by
  intro fuel
  induction fuel with
  | zero => intro j k h; cases h
  | succ n ih =>
    intro j k h
    unfold loopExit at h
    by_cases hf : flag j = true
    · rw [if_pos hf] at h
      obtain ⟨h1, h2, h3⟩ := ih (j + 1) k h
      refine ⟨h1, by omega, fun i hji hik => ?_⟩
      rcases Nat.eq_or_lt_of_le hji with he | hl
      · rw [← he]; exact hf
      · exact h3 i hl hik
    · rw [if_neg hf] at h
      cases h
      exact ⟨by simpa using hf, Nat.le_refl _, fun i h1 h2 => by omega⟩

end ConfigKaraoke

namespace BuildRs

/-- C1 counterexample: with both override variables set and the pkg-config
probe failing, the non-bundled `get_build_paths` returns the propagated
probe error, not the two override paths — refuting the claim that the
overrides win regardless of the probe outcome. -/
theorem C1_counterexample_probe_error_wins :
    (getBuildPaths envBoth (Except.error BuildError.probeFailure)).2
        = Except.error BuildError.probeFailure
    ∧ (getBuildPaths envBoth (Except.error BuildError.probeFailure)).2
        ≠ Except.ok (["/inc"], ["/lib"]) :=
  ⟨rfl, by simp [getBuildPaths]⟩

/-- C1 (amended): whenever the pkg-config probe itself succeeds (returning
any pair of optional paths), an environment in which both override variables
are set makes `get_build_paths` return exactly those two paths, the probe
result notwithstanding; a failing probe instead propagates its error. -/
theorem C1_env_overrides_on_probe_success (env : Env) (i l : String)
    (hinc : env.includeVar = some i) (hlib : env.libVar = some l)
    (pkgInc pkgLib : Option String) :
    getBuildPaths env (Except.ok (pkgInc, pkgLib)) = ([], Except.ok ([i], [l])) := by
  simp [getBuildPaths, resolvedInclude, resolvedLib, hinc, hlib]

/-- C1 witness: the amended theorem applied to a concrete environment with
both overrides set and a successful probe carrying different paths. -/
theorem C1_witness :
    getBuildPaths envBoth (Except.ok (some "/pkg/inc", some "/pkg/lib"))
      = ([], Except.ok (["/inc"], ["/lib"])) :=
  C1_env_overrides_on_probe_success envBoth "/inc" "/lib" rfl rfl _ _

/-- C5 counterexample: with no overrides set and the probe itself failing —
a case in which neither an override nor a successful probe yields both
paths — `get_build_paths` prints nothing and fails with the propagated
probe error, not with the dependency-not-found condition. -/
theorem C5_counterexample_probe_error_skips_remediation :
    (getBuildPaths envNone (Except.error BuildError.probeFailure)).1 = []
    ∧ (getBuildPaths envNone (Except.error BuildError.probeFailure)).2
        ≠ Except.error BuildError.dependencyNotFound :=
  ⟨rfl, by simp [getBuildPaths]⟩

/-- C5 (amended): whenever the probe succeeds but neither an override nor
the probe result supplies the include path, or neither supplies the library
path, `get_build_paths` fails with the dependency-not-found condition and
its printed output is exactly the two remediation lines; when the probe
itself fails, that error is propagated with no remediation text. -/
theorem C5_dependency_not_found_on_probe_success (env : Env)
    (pkgInc pkgLib : Option String)
    (h : resolvedInclude env pkgInc = none ∨ resolvedLib env pkgLib = none) :
    getBuildPaths env (Except.ok (pkgInc, pkgLib))
      = (remediationLog, Except.error BuildError.dependencyNotFound) := by
  cases hi : resolvedInclude env pkgInc with
  | none =>
    cases hl : resolvedLib env pkgLib with
    | none => simp [getBuildPaths, hi, hl]
    | some l => simp [getBuildPaths, hi, hl]
  | some i =>
    cases hl : resolvedLib env pkgLib with
    | none => simp [getBuildPaths, hi, hl]
    | some l =>
      rcases h with h | h
      · rw [hi] at h; cases h
      · rw [hl] at h; cases h

/-- C5 witness: the amended theorem applied to an environment with no
overrides and a successful probe that found a library path but no include
path. -/
theorem C5_witness :
    getBuildPaths envNone (Except.ok (none, some "/pkg/lib"))
      = (remediationLog, Except.error BuildError.dependencyNotFound) :=
  C5_dependency_not_found_on_probe_success envNone none (some "/pkg/lib") (Or.inl rfl)

/-- C3: evaluation at an empty vendored source tree.  The build that `main`
actually performs under the bundled feature runs the meson setup (and the
other build steps) and does not fail with the empty-source-tree error,
because `main` only calls `get_build_paths`, which never checks the tree;
the check and the reminder lines live in `build_if_necessary`, which would
fail as the claim describes but is never invoked. -/
theorem C3_empty_tree_meson_still_runs :
    BuildStep.mesonSetup ∈ (mainBundled "/out" true).steps
    ∧ (mainBundled "/out" true).result ≠ Except.error BuildError.emptySourceTree
    ∧ (buildIfNecessary "/out" true).result = Except.error BuildError.emptySourceTree
    ∧ (buildIfNecessary "/out" true).log = emptyTreeLog
    ∧ (buildIfNecessary "/out" true).steps = [] :=
  ⟨by decide, by simp [mainBundled, getBuildPathsBundled], rfl, rfl, rfl⟩

end BuildRs

namespace ConfigKaraoke

/-- C2 (confirmed): in the audio callback with render channel count 2, a
processed capture buffer of 480 samples and a 960-entry output buffer, the
buffer written to the stream (the contents of `output_buffer` copied into
the host buffer before render processing) duplicates every processed
sample: position 2i and position 2i+1 both hold processed sample i, for
every i below 480. -/
theorem C2_mono_to_stereo_duplication {α : Type} [Inhabited α]
    (captureProc renderProc : List α → Except ProcessingError (List α))
    (inBuffer processed outputBuffer streamOut p2 : List α)
    (hlen : inBuffer.length = processed.length)
    (hcap : captureProc inBuffer = Except.ok p2)
    (hp2 : p2.length = 480)
    (hout : outputBuffer.length = 960) :
    ∀ i, i < 480 →
      ((callback 2 captureProc renderProc 480 inBuffer processed outputBuffer
          streamOut).outputBuffer)[2 * i]? = p2[i]?
      ∧ ((callback 2 captureProc renderProc 480 inBuffer processed outputBuffer
          streamOut).outputBuffer)[2 * i + 1]? = p2[i]? := by
  intro i hi
  rw [show (480 : Nat) = FRAMES_PER_BUFFER from rfl]
  rw [callback_stereo_outputBuffer 2 captureProc renderProc inBuffer processed outputBuffer
      streamOut p2 (by omega) hlen hcap]
  have hd := dupLoop_getElem?_of_lt FRAMES_PER_BUFFER i p2 outputBuffer hi (by omega)
  have hp : p2[i]? = some (p2.getD i default) := getElem?_eq_some_getD p2 i (by omega)
  rw [Nat.mul_comm 2 i]
  exact ⟨by rw [hd.1, hp], by rw [hd.2, hp]⟩

/-- C2 witness: the theorem applied to a concrete invocation in which
capture processing returns 480 copies of the sample 37, read back at
position index 5. -/
theorem C2_witness :
    ((callback 2 (fun _ => Except.ok (List.replicate 480 (37 : Int)))
        (fun b => Except.ok b) 480 (List.replicate 480 (0 : Int))
        (List.replicate 480 (0 : Int)) (List.replicate 960 (0 : Int))
        (List.replicate 960 (0 : Int))).outputBuffer)[2 * 5]?
      = (List.replicate 480 (37 : Int))[5]? :=
  (C2_mono_to_stereo_duplication (fun _ => Except.ok (List.replicate 480 (37 : Int)))
      (fun b => Except.ok b) (List.replicate 480 (0 : Int)) (List.replicate 480 (0 : Int))
      (List.replicate 960 (0 : Int)) (List.replicate 960 (0 : Int))
      (List.replicate 480 (37 : Int)) rfl rfl (List.length_replicate 480 (37 : Int))
      (List.length_replicate 960 (0 : Int)) 5 (by norm_num)).1

/-- C10 (confirmed): the adaptation branch is selected solely by the render
channel count.  For any render channel count other than 1 — the capture
channel count and therefore the processed-buffer length being arbitrary —
the callback performs the duplication loop; the loop reads only the first
480 entries of the processed buffer; and every output-buffer position at
index 960 or above keeps its previous contents. -/
theorem C10_adaptation_solely_by_render_count {α : Type} [Inhabited α]
    (outputChannels : Nat)
    (captureProc renderProc : List α → Except ProcessingError (List α))
    (inBuffer processed outputBuffer streamOut p2 : List α)
    (hch : outputChannels ≠ 1)
    (hlen : inBuffer.length = processed.length)
    (hcap : captureProc inBuffer = Except.ok p2) :
    (callback outputChannels captureProc renderProc 480 inBuffer processed outputBuffer
        streamOut).outputBuffer = dupLoop 480 p2 outputBuffer
    ∧ dupLoop 480 p2 outputBuffer = dupLoop 480 (p2.take 480) outputBuffer
    ∧ ∀ j, 960 ≤ j → (dupLoop 480 p2 outputBuffer)[j]? = outputBuffer[j]? := by
  refine ⟨?_, dupLoop_take 480 p2 outputBuffer,
    fun j hj => dupLoop_getElem?_of_ge 480 j p2 outputBuffer (by omega)⟩
  exact callback_stereo_outputBuffer outputChannels captureProc renderProc inBuffer processed
    outputBuffer streamOut p2 hch hlen hcap

/-- C10 witness: the theorem applied with 3 render channels and a
960-sample processed buffer (2 capture channels), reading output position
1000, which lies beyond the region the duplication loop writes. -/
theorem C10_witness :
    (dupLoop 480 (List.replicate 960 (5 : Int)) (List.replicate 1440 (9 : Int)))[1000]?
      = (List.replicate 1440 (9 : Int))[1000]? :=
  (C10_adaptation_solely_by_render_count 3 (fun _ => Except.ok (List.replicate 960 (5 : Int)))
      (fun b => Except.ok b) (List.replicate 960 (0 : Int)) (List.replicate 960 (0 : Int))
      (List.replicate 1440 (9 : Int)) (List.replicate 1440 (0 : Int))
      (List.replicate 960 (5 : Int)) (by norm_num) rfl rfl).2.2 1000 (by norm_num)

end ConfigKaraoke

namespace ConfigKaraoke

/-- C7 (confirmed): any processing error surfaced inside the callback is
fatal.  When capture processing errors, the callback panics immediately —
the state equality shows the render call is never reached and nothing is
written to the stream buffer; when render processing errors (in whichever
channel branch applies), the callback panics as well. -/
theorem C7_processing_error_aborts_callback {α : Type} [Inhabited α]
    (outputChannels : Nat)
    (captureProc renderProc : List α → Except ProcessingError (List α))
    (inBuffer processed outputBuffer streamOut : List α)
    (hlen : inBuffer.length = processed.length) :
    (∀ e, captureProc inBuffer = Except.error e →
        callback outputChannels captureProc renderProc 480 inBuffer processed outputBuffer
            streamOut
          = ⟨true, [Event.copyInput, Event.captureFrame], inBuffer, outputBuffer, streamOut⟩)
    ∧ (∀ p2 e, captureProc inBuffer = Except.ok p2 →
        (outputChannels = 1 → p2.length = streamOut.length ∧ renderProc p2 = Except.error e) →
        (¬outputChannels = 1 →
            (dupLoop 480 p2 outputBuffer).length = streamOut.length
            ∧ renderProc (dupLoop 480 p2 outputBuffer) = Except.error e) →
        (callback outputChannels captureProc renderProc 480 inBuffer processed outputBuffer
            streamOut).panicked = true) := by
  constructor
  · intro e he
    exact callback_capture_error outputChannels captureProc renderProc inBuffer processed
      outputBuffer streamOut e hlen he
  · intro p2 e hok hm hs
    rw [show (480 : Nat) = FRAMES_PER_BUFFER from rfl]
    by_cases hc : outputChannels = 1
    · rw [callback_mono_render_error outputChannels captureProc renderProc inBuffer processed
        outputBuffer streamOut p2 e hc hlen hok (hm hc).1 (hm hc).2]
    · rw [callback_stereo_render_error outputChannels captureProc renderProc inBuffer processed
        outputBuffer streamOut p2 e hc hlen hok (hs hc).1 (hs hc).2]

/-- C7 witness: the theorem applied to a mono invocation whose render
processing fails with error code 3. -/
theorem C7_witness :
    (callback 1 (fun b => Except.ok b) (fun _ => Except.error ⟨3⟩) 480
        (List.replicate 480 (0 : Int)) (List.replicate 480 (0 : Int))
        (List.replicate 480 (0 : Int)) (List.replicate 480 (0 : Int))).panicked = true :=
  (C7_processing_error_aborts_callback 1 (fun b => Except.ok b) (fun _ => Except.error ⟨3⟩)
      (List.replicate 480 (0 : Int)) (List.replicate 480 (0 : Int))
      (List.replicate 480 (0 : Int)) (List.replicate 480 (0 : Int)) rfl).2
    (List.replicate 480 (0 : Int)) ⟨3⟩ rfl (fun _ => ⟨rfl, rfl⟩) (fun h => absurd rfl h)

/-- C8 (confirmed): in every callback invocation that passes the frame
assert and the slice-length checks, the recorded steps are exactly, in
order: copy the input, run capture processing, adapt channels (the mono
copy when the render channel count is 1, the duplication loop and the
output-buffer write otherwise), and finally run render processing on the
stream buffer — so capture processing always precedes render processing
within one audio period, whatever the render outcome. -/
theorem C8_callback_step_order {α : Type} [Inhabited α]
    (outputChannels : Nat)
    (captureProc renderProc : List α → Except ProcessingError (List α))
    (inBuffer processed outputBuffer streamOut p2 : List α)
    (hlen : inBuffer.length = processed.length)
    (hcap : captureProc inBuffer = Except.ok p2)
    (hm : outputChannels = 1 → p2.length = streamOut.length)
    (hs : ¬outputChannels = 1 →
        (dupLoop 480 p2 outputBuffer).length = streamOut.length) :
    (callback outputChannels captureProc renderProc 480 inBuffer processed outputBuffer
        streamOut).events
      = if outputChannels = 1
        then [Event.copyInput, Event.captureFrame, Event.monoWrite, Event.renderFrame]
        else [Event.copyInput, Event.captureFrame, Event.adaptDup, Event.writeOut,
              Event.renderFrame] := by
  rw [show (480 : Nat) = FRAMES_PER_BUFFER from rfl]
  by_cases hc : outputChannels = 1
  · rw [if_pos hc]
    cases hr : renderProc p2 with
    | error e =>
      rw [callback_mono_render_error outputChannels captureProc renderProc inBuffer processed
        outputBuffer streamOut p2 e hc hlen hcap (hm hc) hr]
    | ok s2 =>
      rw [callback_mono_render_ok outputChannels captureProc renderProc inBuffer processed
        outputBuffer streamOut p2 s2 hc hlen hcap (hm hc) hr]
  · rw [if_neg hc]
    cases hr : renderProc (dupLoop FRAMES_PER_BUFFER p2 outputBuffer) with
    | error e =>
      rw [callback_stereo_render_error outputChannels captureProc renderProc inBuffer processed
        outputBuffer streamOut p2 e hc hlen hcap (hs hc) hr]
    | ok s2 =>
      rw [callback_stereo_render_ok outputChannels captureProc renderProc inBuffer processed
        outputBuffer streamOut p2 s2 hc hlen hcap (hs hc) hr]

/-- C8 witness: the theorem applied to a mono invocation; the step order is
the mono sequence. -/
theorem C8_witness :
    (callback 1 (fun _ => Except.ok (List.replicate 480 (3 : Int))) (fun b => Except.ok b) 480
        (List.replicate 480 (0 : Int)) (List.replicate 480 (0 : Int))
        (List.replicate 480 (0 : Int)) (List.replicate 480 (0 : Int))).events
      = [Event.copyInput, Event.captureFrame, Event.monoWrite, Event.renderFrame] := by
  rw [C8_callback_step_order 1 (fun _ => Except.ok (List.replicate 480 (3 : Int)))
      (fun b => Except.ok b) (List.replicate 480 (0 : Int)) (List.replicate 480 (0 : Int))
      (List.replicate 480 (0 : Int)) (List.replicate 480 (0 : Int))
      (List.replicate 480 (3 : Int)) rfl rfl
      (fun _ => by rw [List.length_replicate, List.length_replicate])
      (fun h => absurd rfl h)]
  exact if_pos rfl

/-- C9 (confirmed): the callback asserts the host-delivered frame count
equals FRAMES_PER_BUFFER (480) before anything else; on any other frame
count it panics with all three buffers untouched and no step performed. -/
theorem C9_host_frame_count_assert {α : Type} [Inhabited α]
    (outputChannels frames : Nat)
    (captureProc renderProc : List α → Except ProcessingError (List α))
    (inBuffer processed outputBuffer streamOut : List α)
    (h : frames ≠ 480) :
    callback outputChannels captureProc renderProc frames inBuffer processed outputBuffer
        streamOut = ⟨true, [], processed, outputBuffer, streamOut⟩ :=
  callback_frames_mismatch outputChannels captureProc renderProc frames inBuffer processed
    outputBuffer streamOut h

/-- C9 witness: the theorem applied to a host delivery of 256 frames. -/
theorem C9_witness :
    callback 2 (fun b => Except.ok b) (fun b => Except.ok b) 256 [(1 : Int)] [2] [3] [4]
      = ⟨true, [], [2], [3], [4]⟩ :=
  C9_host_frame_count_assert 2 256 (fun b => Except.ok b) (fun b => Except.ok b)
    [(1 : Int)] [2] [3] [4] (by decide)

/-- C4 (confirmed): configuration loading round-trips.  A file in which
every field is explicitly present deserializes to exactly those values, and
a nonexistent path yields the all-default configuration: one capture
channel, one render channel, and the default nested configuration blocks. -/
theorem C4_config_round_trip {C A : Type} (cdef : C) (adef : A) (nc nr : Nat)
    (c : C) (a : A) :
    from_file_with_defaults cdef adef (some (Except.ok ⟨some nc, some nr, some c, some a⟩))
        = Except.ok ⟨nc, nr, c, a⟩
    ∧ from_file_with_defaults cdef adef
        (none : Option (Except String (PartialAppConfig C A)))
        = Except.ok ⟨1, 1, cdef, adef⟩ :=
  ⟨rfl, rfl⟩

/-- C6 counterexample: the demo `main` performs no stop action — after the
control loop exits it simply returns, so the claim that the audio stream is
then stopped by the non-real-time thread does not hold of the source, which
only drops the stream at end of scope. -/
theorem C6_counterexample_no_stop_call :
    MainAction.stopStream ∉ mainActions := by decide

/-- C6 (amended): in the discrete-time model of `wait_ctrlc` — one flag
load every POLL_INTERVAL_MS milliseconds, the handler clearing the flag at
millisecond `c` — the loop exits at the first poll at or after the clear,
hence within one polling interval of it; `main` then returns without an
explicit stream stop, the stream being released only by drop. -/
theorem C6_loop_exits_within_one_interval (c fuel k : Nat)
    (h : loopExit (flagOfClear c) 0 fuel = some k) :
    c ≤ POLL_INTERVAL_MS * k ∧ POLL_INTERVAL_MS * k < c + POLL_INTERVAL_MS
    ∧ MainAction.stopStream ∉ mainActions := by
  obtain ⟨h1, -, h3⟩ := loopExit_spec (flagOfClear c) fuel 0 k h
  have hk : ¬(10 * k < c) := by simpa [flagOfClear, POLL_INTERVAL_MS] using h1
  have hub : 10 * k < c + 10 := by
    cases k with
    | zero => omega
    | succ m =>
      have hm := h3 m (Nat.zero_le _) (by omega)
      have hm2 : 10 * m < c := by simpa [flagOfClear, POLL_INTERVAL_MS] using hm
      omega
  exact ⟨Nat.le_of_not_lt hk, hub, by decide⟩

/-- C6 witness: the amended theorem applied to a flag cleared at
millisecond 15; the loop exits at poll 2 (millisecond 20), within one
interval of the clear. -/
theorem C6_witness :
    15 ≤ POLL_INTERVAL_MS * 2 ∧ POLL_INTERVAL_MS * 2 < 15 + POLL_INTERVAL_MS
    ∧ MainAction.stopStream ∉ mainActions :=
  C6_loop_exits_within_one_interval 15 5 2 (by decide)

end ConfigKaraoke

namespace ConfigKaraoke

/-- C4 witness: the round-trip theorem applied at concrete field values
(capture 2, render 3, nested blocks 7 and 8, external defaults 10 and 20). -/
theorem C4_witness :
    from_file_with_defaults 10 20 (some (Except.ok ⟨some 2, some 3, some 7, some 8⟩))
        = Except.ok ⟨2, 3, 7, 8⟩
    ∧ from_file_with_defaults 10 20 (none : Option (Except String (PartialAppConfig Nat Nat)))
        = Except.ok ⟨1, 1, 10, 20⟩ :=
  C4_config_round_trip 10 20 2 3 7 8

end ConfigKaraoke
